import Mathlib

/-!
# ArtNet plugin lifecycle and USB Pro widget messages

A shallow embedding of

* `ArtNetPlugin::start`, `ArtNetPlugin::stop` and `ArtNetPlugin::load_prefs`
  (`plugins/artnet/artnetplugin.cpp`),
* the message structs, the constants and the constructor of `UsbProWidget`
  (`plugins/usbpro/UsbProWidget.h`).

The collaborators whose code is not part of the sources (the preference store,
the `ArtNetDevice`, the plugin adaptor) are either parameters of the embedding
or modelled from the specification; each such definition says so.
-/

namespace Ola

/-! ## Collaborators of the plugin -/

/-- Identity of a heap allocated `ArtNetDevice` (the value of the pointer). -/
abbrev DevId := Nat

/-- Calls that leave the plugin, in the order they are issued. -/
inductive Effect where
  | load_prefs
  | new_device (d : DevId)
  | device_start (d : DevId)
  | device_stop (d : DevId)
  | delete_device (d : DevId)
  | delete_prefs
  | register_fd (sd : Int) (d : DevId)
  | unregister_fd (sd : Int)
  | register_device (d : DevId)
  | unregister_device (d : DevId)
  deriving DecidableEq

/-- Everything outside the plugin object that its calls can change: the read
descriptors and the devices registered with the adaptor, the device objects that
are allocated and not yet deleted, and the log of calls made so far. -/
structure World where
  fds : Finset Int
  devices : Finset DevId
  live : Finset DevId
  trace : List Effect
  deriving DecidableEq

/-- Append one call to the log. -/
def World.log (w : World) (e : Effect) : World :=
  { w with trace := w.trace ++ [e] }

/-- Operations of the `Preferences` class (`llad/preferences.h`, not part of the
sources), taken as a parameter. `load` yields the object holding the stored
preference set; `save` yields the object after it was written back. -/
structure PreferencesOps (P : Type) where
  create : String → P
  load : P → P
  get_val : P → String → String
  set_val : P → String → String → P
  save : P → P

/-- Behaviour of the collaborators of the plugin that is decided outside the
sources: the preference store, the allocator and the `ArtNetDevice` methods (a
non-zero return of `start`/`stop` is a failure), and whether the adaptor accepts
a registration. Each answer may depend on the world at the time of the call;
the socket descriptor of a device is fixed. -/
structure Env (P : Type) where
  prefs : PreferencesOps P
  new_device : World → P → DevId
  device_start : World → DevId → Int
  device_stop : World → DevId → Int
  get_sd : DevId → Int
  register_fd_ok : World → Int → Bool
  register_device_ok : World → DevId → Bool

/-- Modelled from the spec: `register_fd` of the adaptor (`llad/pluginadaptor.h`
is missing), called `register_read` in the spec: it returns success or failure and on
success the descriptor is added to the read-interest set. -/
def register_fd {P : Type} (env : Env P) (w : World) (sd : Int) (d : DevId) : Int × World :=
  let w1 := w.log (Effect.register_fd sd d)
  if env.register_fd_ok w sd then (0, { w1 with fds := insert sd w1.fds }) else (-1, w1)

/-- Modelled from the spec: `unregister_fd` of the adaptor (`llad/pluginadaptor.h`
is missing), called `unregister_read` in the spec: the descriptor is removed from the
read-interest set, and removing an unregistered descriptor changes nothing. -/
def unregister_fd (w : World) (sd : Int) : World :=
  let w1 := w.log (Effect.unregister_fd sd)
  { w1 with fds := w1.fds.erase sd }

/-- Modelled from the spec: `register_device` of the adaptor
(`llad/pluginadaptor.h` is missing): it returns success or failure and on success
the device joins the set of registered devices. -/
def register_device {P : Type} (env : Env P) (w : World) (d : DevId) : Int × World :=
  let w1 := w.log (Effect.register_device d)
  if env.register_device_ok w d then (0, { w1 with devices := insert d w1.devices })
  else (-1, w1)

/-- Modelled from the spec: `unregister_device` of the adaptor
(`llad/pluginadaptor.h` is missing): a registered device is removed and success
is returned, an unknown device is a failure. -/
def unregister_device (w : World) (d : DevId) : Int × World :=
  let w1 := w.log (Effect.unregister_device d)
  if d ∈ w.devices then (0, { w1 with devices := w1.devices.erase d }) else (-1, w1)

/-- The expression `new ArtNetDevice(this, "Art-Net Device", m_prefs)`: a plain
`new` never yields NULL, so the result is always a pointer to a live object. -/
def new_ArtNetDevice {P : Type} (env : Env P) (w : World) (prefs : P) : Option DevId × World :=
  let d := env.new_device w prefs
  let w1 := w.log (Effect.new_device d)
  (some d, { w1 with live := insert d w1.live })

/-- The statement `delete m_dev`. -/
def delete_device (w : World) (d : DevId) : World :=
  let w1 := w.log (Effect.delete_device d)
  { w1 with live := w1.live.erase d }

/-! ## `ArtNetPlugin::load_prefs` -/

def ARTNET_LONG_NAME : String := "lla - ArtNet node"

def ARTNET_SHORT_NAME : String := "lla - ArtNet node"

def ARTNET_SUBNET : String := "0"

/-- The three guarded `set_val`/`save` blocks of `load_prefs`, applied to the
preferences object after `load`. -/
def apply_defaults {P : Type} (ops : PreferencesOps P) (prefs : P) : P :=
  let prefs :=
    if ops.get_val prefs "short_name" = "" then
      ops.save (ops.set_val prefs "short_name" ARTNET_SHORT_NAME)
    else prefs
  let prefs :=
    if ops.get_val prefs "long_name" = "" then
      ops.save (ops.set_val prefs "long_name" ARTNET_LONG_NAME)
    else prefs
  let prefs :=
    if ops.get_val prefs "subnet" = "" then
      ops.save (ops.set_val prefs "subnet" ARTNET_SUBNET)
    else prefs
  prefs

/-- Source `ArtNetPlugin::load_prefs`; `none` is the NULL pointer. The test
`prefs == NULL` after `new` is kept although `new` never yields NULL. -/
def load_prefs {P : Type} (ops : PreferencesOps P) : Option P :=
  let prefs : Option P := some (ops.create "artnet")
  match prefs with
  | none => none
  | some prefs =>
    let prefs := ops.load prefs
    let prefs := apply_defaults ops prefs
    if ops.get_val prefs "short_name" = "" ∨
        ops.get_val prefs "long_name" = "" ∨
        ops.get_val prefs "subnet" = "" then
      none
    else
      some prefs

/-! ## `ArtNetPlugin::start` and `ArtNetPlugin::stop` -/

/-- The members of `ArtNetPlugin` that `start` and `stop` touch. A pointer that
was deleted keeps its value, as in the source. -/
structure ArtNetPlugin (P : Type) where
  m_enabled : Bool
  m_dev : Option DevId
  m_prefs : Option P
  deriving DecidableEq

/-- Source `ArtNetPlugin::start`: the return value, the plugin afterwards and
the world afterwards. -/
def ArtNetPlugin.start {P : Type} (env : Env P) (s : ArtNetPlugin P) (w : World) :
    Int × ArtNetPlugin P × World :=
  if s.m_enabled then (-1, s, w)
  else
    let w := w.log Effect.load_prefs
    let s := { s with m_prefs := load_prefs env.prefs }
    match s.m_prefs with
    | none => (-1, s, w)
    | some prefs =>
      let (dev, w) := new_ArtNetDevice env w prefs
      let s := { s with m_dev := dev }
      match s.m_dev with
      | none => (-1, s, w)
      | some d =>
        let r := env.device_start w d
        let w := w.log (Effect.device_start d)
        if r ≠ 0 then
          (-1, s, delete_device w d)
        else
          let sd := env.get_sd d
          let w := if sd ≥ 0 then (register_fd env w sd d).2 else w
          let w := (register_device env w d).2
          (0, { s with m_enabled := true }, w)

/-- Source `ArtNetPlugin::stop`. The result is `none` when the call dereferences
a NULL `m_dev`, which the source leaves undefined. -/
def ArtNetPlugin.stop {P : Type} (env : Env P) (s : ArtNetPlugin P) (w : World) :
    Option (Int × ArtNetPlugin P × World) :=
  if !s.m_enabled then some (-1, s, w)
  else
    match s.m_dev with
    | none => none
    | some d =>
      let w := unregister_fd w (env.get_sd d)
      let r := env.device_stop w d
      let w := w.log (Effect.device_stop d)
      if r ≠ 0 then some (-1, s, w)
      else
        let w := (unregister_device w d).2
        let s := { s with m_enabled := false }
        let w := delete_device w d
        let w := w.log Effect.delete_prefs
        some (0, s, w)

/-! ## A concrete environment -/

/-- A preference store kept as a list of key/value pairs: `get_val` of a missing
key is the empty string, `set_val` replaces the entry of the key. -/
def listStore (stored : List (String × String)) : PreferencesOps (List (String × String)) where
  create := fun _ => []
  load := fun _ => stored
  get_val := fun p k => ((p.find? (fun kv => kv.1 = k)).map Prod.snd).getD ""
  set_val := fun p k v => (k, v) :: p.filter (fun kv => kv.1 ≠ k)
  save := fun p => p

/-- An environment in which the allocator hands out device `7` with socket `sd`,
the device methods return `startRet` and `stopRet`, and the adaptor accepts a
descriptor or a device registration according to `fdOk` and `devOk`. -/
def demoEnv (stored : List (String × String)) (sd startRet stopRet : Int) (fdOk devOk : Bool) :
    Env (List (String × String)) where
  prefs := listStore stored
  new_device := fun _ _ => 7
  device_start := fun _ _ => startRet
  device_stop := fun _ _ => stopRet
  get_sd := fun _ => sd
  register_fd_ok := fun _ _ => fdOk
  register_device_ok := fun _ _ => devOk

/-- A plugin that was never started. -/
def stoppedPlugin : ArtNetPlugin (List (String × String)) :=
  { m_enabled := false, m_dev := none, m_prefs := none }

/-- A world with nothing registered. -/
def emptyWorld : World :=
  { fds := ∅, devices := ∅, live := ∅, trace := [] }

/-- A plugin as `start` leaves it on success: enabled, owning device `7`. -/
def startedPlugin : ArtNetPlugin (List (String × String)) :=
  { m_enabled := true, m_dev := some 7, m_prefs := some [] }

/-- The world a successful `start` of device `7` on socket `3` produces from
nothing registered, with an empty log. -/
def startedWorld : World :=
  { fds := {3}, devices := {7}, live := {7}, trace := [] }

/-! ## Observations on a run -/

/-- The calls issued between world `w` and the later world `w2`. -/
def issued (w w2 : World) : List Effect :=
  w2.trace.drop w.trace.length

/-- Call `a` is issued before call `b` in a log: both occur, and the first `a`
comes earlier than the first `b`. -/
def precedes (a b : Effect) (l : List Effect) : Bool :=
  decide (l.indexOf a < l.indexOf b) && decide (b ∈ l)

/-- The calls that register something with the adaptor. -/
def Effect.isRegistration : Effect → Bool
  | Effect.register_fd _ _ => true
  | Effect.register_device _ => true
  | _ => false

/-- Running `start` and then immediately `stop`: both return values, the plugin
and the world at the end (`none` when `stop` is undefined). -/
def start_then_stop {P : Type} (env : Env P) (s : ArtNetPlugin P) (w : World) :
    Option ((Int × Int) × ArtNetPlugin P × World) :=
  let r := ArtNetPlugin.start env s w
  (ArtNetPlugin.stop env r.2.1 r.2.2).map (fun q => ((r.1, q.1), q.2))

/-- The laws of a key/value store: reading a key after setting it returns the
value set, setting another key or saving does not change what a key reads. -/
structure KeyValueStore {P : Type} (ops : PreferencesOps P) : Prop where
  get_set : ∀ p k v, ops.get_val (ops.set_val p k v) k = v
  get_set_other : ∀ p k j v, j ≠ k → ops.get_val (ops.set_val p k v) j = ops.get_val p j
  get_save : ∀ p k, ops.get_val (ops.save p) k = ops.get_val p k

/-! ## `UsbProWidget.h` -/

def DMX_BUF_LEN : Nat := 513

def USER_CONFIG_LEN : Nat := 508

/-- Source `static const int K_MISSING_PARAM = -1`. -/
def K_MISSING_PARAM : Int := -1

/-- Source `static const int K_HEADER_SIZE = 4`. -/
def K_HEADER_SIZE : Nat := 4

/-- Source `static const uint8_t K_START_CODE = 0`. -/
def K_START_CODE : Nat := 0

/-- Conversion of an `int` to `uint8_t`: reduction modulo `2^8`. -/
def to_uint8 (x : Int) : Nat :=
  (x % 256).toNat

/-- Source `pms_cos`: start index, five change-flag bytes, forty data bytes. -/
structure pms_cos where
  start : Nat
  changed : List Nat
  data : List Nat

/-- Source `promsg`: four header bytes followed by the union of the payloads,
seen as its bytes. All members are `uint8_t`, so there is no padding. -/
structure promsg where
  som : Nat
  label : Nat
  len : Nat
  len_hi : Nat
  pm_pmu : List Nat

/-- The data members of `UsbProWidget`; a pointer is `none` when NULL. -/
structure UsbProWidget where
  m_dmx : List Nat
  m_enabled : Bool
  m_break_time : Nat
  m_mab_time : Nat
  m_rate : Nat
  m_listener : Option Nat
  m_socket : Option Nat

/-- Source constructor `UsbProWidget::UsbProWidget()`. The initialiser list
leaves `m_dmx` and `m_listener` untouched, so their indeterminate contents are
arguments here; the three `uint8_t` members are initialised from the `int`
constant `K_MISSING_PARAM`. -/
def UsbProWidget.construct (dmx : List Nat) (listener : Option Nat) : UsbProWidget :=
  { m_dmx := dmx
    m_enabled := false
    m_break_time := to_uint8 K_MISSING_PARAM
    m_mab_time := to_uint8 K_MISSING_PARAM
    m_rate := to_uint8 K_MISSING_PARAM
    m_listener := listener
    m_socket := none }

/-- Modelled from the spec: `set_msg_len` (declared in the header, its body in
`UsbProWidget.cpp` is missing): the payload length is stored as a 16-bit
little-endian count, low byte in `len` and high byte in `len_hi`. -/
def set_msg_len (msg : promsg) (len : Nat) : promsg :=
  { msg with len := len % 256, len_hi := len / 256 % 256 }

/-- Modelled from the spec: the bytes `SendMessage` (body missing) puts on the
wire: the four header bytes, then exactly as many payload bytes as the length
field declares, and no trailer. -/
def wire_bytes (msg : promsg) : List Nat :=
  [msg.som, msg.label, msg.len, msg.len_hi] ++ msg.pm_pmu.take (msg.len + 256 * msg.len_hi)

/-- Modelled from the spec: the 513-byte channel frame built from an application
buffer (the body of `SendDmx` is missing): the start code, then 512 channel
values, a shorter buffer zero-padded and a longer one truncated. -/
def channel_frame (buf : List Nat) : List Nat :=
  K_START_CODE :: (buf.take (DMX_BUF_LEN - 1) ++
    List.replicate (DMX_BUF_LEN - 1 - buf.length) 0)

/-- Modelled from the spec: `SendDmx` (its body in `UsbProWidget.cpp` is
missing), as the bytes written to the connection. The start marker and the
DMX label are constants of the missing file and are arguments here. -/
def SendDmx (start_marker label_dmx : Nat) (buf : List Nat) : List Nat :=
  let msg : promsg :=
    { som := start_marker, label := label_dmx, len := 0, len_hi := 0,
      pm_pmu := channel_frame buf }
  wire_bytes (set_msg_len msg DMX_BUF_LEN)

/-- Modelled from the spec: one flag bit of the change-of-state update (the body
of `handle_cos` is missing): when bit `j` of the change flags is set, the channel
it stands for is overwritten with the data byte under the cursor and the cursor
advances. The state is the frame and the cursor; `chan` maps the start index
and the bit position to the channel, which the spec leaves open. -/
def cos_step (chan : Nat → Nat → Nat) (cos : pms_cos) (st : List Nat × Nat) (j : Nat) :
    List Nat × Nat :=
  if (cos.changed.getD (j / 8) 0).testBit (j % 8) then
    (st.1.set (chan cos.start j) (cos.data.getD st.2 0), st.2 + 1)
  else
    st

/-- Modelled from the spec: `handle_cos` (its body in `UsbProWidget.cpp` is
missing): the forty flag bits of the five change-flag bytes are visited in
order and applied to the last-received frame `m_dmx`. -/
def UsbProWidget.handle_cos (chan : Nat → Nat → Nat) (w : UsbProWidget) (cos : pms_cos) :
    UsbProWidget :=
  { w with m_dmx := ((List.range 40).foldl (cos_step chan cos) (w.m_dmx, 0)).1 }

/-! ## Intermediate worlds of `start` and `stop` -/

/-- The world in which a successful `stop` has unwound `startedWorld`. -/
def stoppedWorld : World :=
  { fds := ∅, devices := ∅, live := ∅,
    trace := [Effect.unregister_fd 3, Effect.device_stop 7, Effect.unregister_device 7,
      Effect.delete_device 7, Effect.delete_prefs] }

/-- The world of `stop` at the moment it asks the device to stop. -/
def stop_world {P : Type} (env : Env P) (w : World) (d : DevId) : World :=
  unregister_fd w (env.get_sd d)

/-- The world a successful `stop` of device `d` ends in. -/
def stop_final {P : Type} (env : Env P) (w : World) (d : DevId) : World :=
  (delete_device (unregister_device ((stop_world env w d).log (Effect.device_stop d)) d).2 d).log
    Effect.delete_prefs

/-- The world of `start` at the moment it asks the new device to start. -/
def start_world {P : Type} (env : Env P) (w : World) (prefs : P) : World :=
  (new_ArtNetDevice env (w.log Effect.load_prefs) prefs).2

/-- The device `start` allocates. -/
def start_device {P : Type} (env : Env P) (w : World) (prefs : P) : DevId :=
  env.new_device (w.log Effect.load_prefs) prefs

/-- The world a successful `start` ends in. -/
def start_final {P : Type} (env : Env P) (w : World) (prefs : P) : World :=
  let d := start_device env w prefs
  let w1 := (start_world env w prefs).log (Effect.device_start d)
  (register_device env (if env.get_sd d ≥ 0 then (register_fd env w1 (env.get_sd d) d).2 else w1)
    d).2

/-- The preference set `load_prefs` returns when nothing is stored. -/
def defaultPrefs : List (String × String) :=
  [("subnet", "0"), ("long_name", "lla - ArtNet node"), ("short_name", "lla - ArtNet node")]

/-- A preference store that drops every write: `set_val` and `save` leave the
object as it is, so a missing key keeps reading empty. -/
def readOnlyStore : PreferencesOps (List (String × String)) where
  create := fun _ => []
  load := fun p => p
  get_val := fun p k => ((p.find? (fun kv => kv.1 = k)).map Prod.snd).getD ""
  set_val := fun p _ _ => p
  save := fun p => p

/-- An environment whose preference store is `readOnlyStore`. -/
def brokenEnv (sd : Int) : Env (List (String × String)) where
  prefs := readOnlyStore
  new_device := fun _ _ => 7
  device_start := fun _ _ => 0
  device_stop := fun _ _ => 0
  get_sd := fun _ => sd
  register_fd_ok := fun _ _ => true
  register_device_ok := fun _ _ => true

/-! ## Shape of the runs -/

/-- On an enabled plugin with device `d`, `stop` is decided by the device. -/
theorem stop_of_enabled {P : Type} (env : Env P) (s : ArtNetPlugin P) (w : World) (d : DevId)
    (h : s.m_enabled = true) (hd : s.m_dev = some d) :
    ArtNetPlugin.stop env s w =
      if env.device_stop (stop_world env w d) d = 0 then
        some (0, { s with m_enabled := false }, stop_final env w d)
      else some (-1, s, (stop_world env w d).log (Effect.device_stop d)) := by
  simp [ArtNetPlugin.stop, h, hd, stop_world, stop_final]

/-- A successful `stop` of an enabled plugin went through the whole body. -/
theorem stop_success {P : Type} (env : Env P) (s s2 : ArtNetPlugin P) (w w2 : World)
    (h : s.m_enabled = true) (hstop : ArtNetPlugin.stop env s w = some (0, s2, w2)) :
    ∃ d, s.m_dev = some d ∧ env.device_stop (stop_world env w d) d = 0 ∧
      s2 = { s with m_enabled := false } ∧ w2 = stop_final env w d := by
  cases hd : s.m_dev with
  | none => simp [ArtNetPlugin.stop, h, hd] at hstop
  | some d =>
    rw [stop_of_enabled env s w d h hd] at hstop
    by_cases hr : env.device_stop (stop_world env w d) d = 0
    · simp only [hr, if_true, Option.some.injEq, Prod.mk.injEq, true_and] at hstop
      refine ⟨d, rfl, hr, ?_, hstop.2.symm⟩
      rw [← hstop.1, hd]
    · simp [hr] at hstop

/-- When the preferences do not load, `start` stops right there. -/
theorem start_prefs_fail {P : Type} (env : Env P) (s : ArtNetPlugin P) (w : World)
    (h : s.m_enabled = false) (hp : load_prefs env.prefs = none) :
    ArtNetPlugin.start env s w = (-1, { s with m_prefs := none }, w.log Effect.load_prefs) := by
  simp [ArtNetPlugin.start, h, hp]

/-- When the device does not start, `start` deletes it and fails. -/
theorem start_device_fail {P : Type} (env : Env P) (s : ArtNetPlugin P) (w : World) (p : P)
    (h : s.m_enabled = false) (hp : load_prefs env.prefs = some p)
    (hd : env.device_start (start_world env w p) (start_device env w p) ≠ 0) :
    ArtNetPlugin.start env s w =
      (-1, { s with m_prefs := some p, m_dev := some (start_device env w p) },
        delete_device ((start_world env w p).log (Effect.device_start (start_device env w p)))
          (start_device env w p)) := by
  simp only [start_world, start_device, new_ArtNetDevice] at hd
  simp [ArtNetPlugin.start, h, hp, start_world, start_device, new_ArtNetDevice, hd]

/-- When the preferences load and the device starts, `start` succeeds. -/
theorem start_success {P : Type} (env : Env P) (s : ArtNetPlugin P) (w : World) (p : P)
    (h : s.m_enabled = false) (hp : load_prefs env.prefs = some p)
    (hd : env.device_start (start_world env w p) (start_device env w p) = 0) :
    ArtNetPlugin.start env s w =
      (0, { m_enabled := true, m_dev := some (start_device env w p), m_prefs := some p },
        start_final env w p) := by
  simp only [start_world, start_device, new_ArtNetDevice] at hd
  simp [ArtNetPlugin.start, h, hp, start_world, start_device, start_final, new_ArtNetDevice, hd]

/-! ## The lifecycle claims -/

/-- C1: on a plugin that is not enabled `stop` returns -1 and changes neither the
plugin nor the world (so it makes no call and the flag stays false); and after a
successful `stop` of an enabled plugin a second `stop` returns -1 as well. -/
theorem stop_while_stopped_fails {P : Type} (env : Env P) (s : ArtNetPlugin P) (w : World) :
    (s.m_enabled = false → ArtNetPlugin.stop env s w = some (-1, s, w)) ∧
    (∀ s2 w2, s.m_enabled = true → ArtNetPlugin.stop env s w = some (0, s2, w2) →
      ArtNetPlugin.stop env s2 w2 = some (-1, s2, w2)) := by
  constructor
  · intro h
    simp [ArtNetPlugin.stop, h]
  · intro s2 w2 h hstop
    obtain ⟨d, -, -, hs2, -⟩ := stop_success env s s2 w w2 h hstop
    have h2 : s2.m_enabled = false := by rw [hs2]
    simp [ArtNetPlugin.stop, h2]

/-- C1 at a never started plugin, and at the plugin a successful stop leaves. -/
theorem stop_while_stopped_fails_witness :
    ArtNetPlugin.stop (demoEnv [] 3 0 0 true true) stoppedPlugin emptyWorld
        = some (-1, stoppedPlugin, emptyWorld) ∧
    ArtNetPlugin.stop (demoEnv [] 3 0 0 true true) { startedPlugin with m_enabled := false }
        stoppedWorld = some (-1, { startedPlugin with m_enabled := false }, stoppedWorld) :=
  ⟨(stop_while_stopped_fails (demoEnv [] 3 0 0 true true) stoppedPlugin emptyWorld).1 rfl,
   (stop_while_stopped_fails (demoEnv [] 3 0 0 true true) startedPlugin startedWorld).2 _ _ rfl
     (by decide)⟩

/-- C2: on an enabled plugin `start` returns -1 and leaves the plugin (flag,
device, preferences) and the world (registrations, objects, log of calls)
exactly as they were. -/
theorem start_while_started_fails {P : Type} (env : Env P) (s : ArtNetPlugin P) (w : World)
    (h : s.m_enabled = true) :
    ArtNetPlugin.start env s w = (-1, s, w) := by
  simp [ArtNetPlugin.start, h]

/-- C2 at a started plugin. -/
theorem start_while_started_fails_witness :
    startedPlugin.m_enabled = true ∧
    ArtNetPlugin.start (demoEnv [] 3 0 0 true true) startedPlugin startedWorld
      = (-1, startedPlugin, startedWorld) :=
  ⟨rfl, start_while_started_fails (demoEnv [] 3 0 0 true true) startedPlugin startedWorld rfl⟩

/-- C3 as stated fails: a successful `stop` issues `unregister_fd` first and
`unregister_device` only after the device was stopped, so `unregister_device`
does not precede `unregister_fd`. -/
theorem stop_order_counterexample :
    ArtNetPlugin.stop (demoEnv [] 3 0 0 true true) startedPlugin startedWorld
        = some (0, { startedPlugin with m_enabled := false }, stoppedWorld) ∧
      issued startedWorld stoppedWorld = [Effect.unregister_fd 3, Effect.device_stop 7,
        Effect.unregister_device 7, Effect.delete_device 7, Effect.delete_prefs] ∧
      precedes (Effect.unregister_device 7) (Effect.unregister_fd 3)
        (issued startedWorld stoppedWorld) = false :=
  ⟨by decide, by decide, by decide⟩

/-- C3 amended: every successful `stop` of an enabled plugin issues exactly, in
this order, `unregister_fd` of the descriptor of the device, the `stop` of the
device, `unregister_device`, `delete m_dev` and `delete m_prefs`. -/
theorem stop_effect_order {P : Type} (env : Env P) (s s2 : ArtNetPlugin P) (w w2 : World)
    (h : s.m_enabled = true) (hstop : ArtNetPlugin.stop env s w = some (0, s2, w2)) :
    ∃ d, s.m_dev = some d ∧
      issued w w2 = [Effect.unregister_fd (env.get_sd d), Effect.device_stop d,
        Effect.unregister_device d, Effect.delete_device d, Effect.delete_prefs] := by
  obtain ⟨d, hd, -, -, hw2⟩ := stop_success env s s2 w w2 h hstop
  refine ⟨d, hd, ?_⟩
  subst hw2
  unfold issued stop_final stop_world delete_device unregister_device unregister_fd World.log
  by_cases hm : d ∈ w.devices <;> simp [hm]

/-- C3 amended, at a started plugin. -/
theorem stop_effect_order_witness :
    ∃ d, startedPlugin.m_dev = some d ∧
      issued startedWorld stoppedWorld =
        [Effect.unregister_fd ((demoEnv [] 3 0 0 true true).get_sd d), Effect.device_stop d,
          Effect.unregister_device d, Effect.delete_device d, Effect.delete_prefs] :=
  stop_effect_order (demoEnv [] 3 0 0 true true) startedPlugin
    { startedPlugin with m_enabled := false } startedWorld stoppedWorld rfl (by decide)

/-- C4 as stated fails. When the device refuses to stop, `stop` returns -1 after
`unregister_fd`: the device stays registered and the plugin stays enabled. When
the descriptor (second run) or the device (third run) handed out by `start` was
registered beforehand, `stop` removes it and the set is smaller than before. -/
theorem start_then_stop_counterexample :
    (start_then_stop (demoEnv [] 3 0 (-1) true true) stoppedPlugin emptyWorld).map
        (fun r => (r.1, r.2.1.m_enabled, r.2.2.fds, r.2.2.devices))
      = some ((0, -1), true, ∅, {7}) ∧
    emptyWorld.devices = ∅ ∧
    (start_then_stop (demoEnv [] 3 0 0 true true) stoppedPlugin
        { emptyWorld with fds := {3} }).map
        (fun r => (r.1, r.2.1.m_enabled, r.2.2.fds, r.2.2.devices))
      = some ((0, 0), false, ∅, ∅) ∧
    (start_then_stop (demoEnv [] 3 0 0 true true) stoppedPlugin
        { emptyWorld with devices := {7} }).map
        (fun r => (r.1, r.2.1.m_enabled, r.2.2.fds, r.2.2.devices))
      = some ((0, 0), false, ∅, ∅) := by
  refine ⟨by decide, by decide, by decide, by decide⟩

/-- C4 amended: on a stopped plugin `start` followed by `stop` always yields a
result, and unless `start` succeeded and `stop` then failed, the registered
descriptors and devices are what they were before `start` and the plugin is not
enabled; this needs that the device and the descriptor a successful `start`
hands out were not registered before. -/
theorem start_then_stop_restores {P : Type} (env : Env P) (s : ArtNetPlugin P) (w : World)
    (hs : s.m_enabled = false)
    (hfresh : ∀ d, (ArtNetPlugin.start env s w).1 = 0 →
      (ArtNetPlugin.start env s w).2.1.m_dev = some d →
      d ∉ w.devices ∧ env.get_sd d ∉ w.fds) :
    ∃ r1 r2 s2 w2, start_then_stop env s w = some ((r1, r2), s2, w2) ∧
      ((r1 = 0 → r2 = 0) →
        w2.fds = w.fds ∧ w2.devices = w.devices ∧ s2.m_enabled = false) := by
  cases hp : load_prefs env.prefs with
  | none =>
    have hst := start_prefs_fail env s w hs hp
    refine ⟨-1, -1, { s with m_prefs := none }, w.log Effect.load_prefs, ?_, ?_⟩
    · simp [start_then_stop, hst, ArtNetPlugin.stop, hs]
    · intro _
      simp [World.log, hs]
  | some p =>
    by_cases hd : env.device_start (start_world env w p) (start_device env w p) = 0
    · have hst := start_success env s w p hs hp hd
      rw [hst] at hfresh
      obtain ⟨hfd, hfs⟩ := hfresh (start_device env w p) rfl rfl
      have hstop := stop_of_enabled env
        { m_enabled := true, m_dev := some (start_device env w p), m_prefs := some p }
        (start_final env w p) (start_device env w p) rfl rfl
      by_cases hr : env.device_stop (stop_world env (start_final env w p) (start_device env w p))
          (start_device env w p) = 0
      · rw [if_pos hr] at hstop
        refine ⟨0, 0, { m_enabled := false, m_dev := some (start_device env w p), m_prefs := some p },
          stop_final env (start_final env w p) (start_device env w p), ?_, ?_⟩
        · simp [start_then_stop, hst, hstop]
        · intro _
          refine ⟨?_, ?_, rfl⟩
          · simp only [stop_final, stop_world, delete_device, unregister_device, unregister_fd,
              start_final, register_device, register_fd, start_world, new_ArtNetDevice, World.log]
            split_ifs <;> simp [Finset.erase_insert, Finset.erase_eq_of_not_mem, hfs]
          · simp only [stop_final, stop_world, delete_device, unregister_device, unregister_fd,
              start_final, register_device, register_fd, start_world, new_ArtNetDevice, World.log]
            split_ifs <;> simp_all [Finset.erase_insert, Finset.erase_eq_of_not_mem]
      · rw [if_neg hr] at hstop
        refine ⟨0, -1, { m_enabled := true, m_dev := some (start_device env w p), m_prefs := some p },
          (stop_world env (start_final env w p) (start_device env w p)).log
            (Effect.device_stop (start_device env w p)), ?_, ?_⟩
        · simp [start_then_stop, hst, hstop]
        · intro hc
          have := hc rfl
          omega
    · have hst := start_device_fail env s w p hs hp hd
      refine ⟨-1, -1, { s with m_prefs := some p, m_dev := some (start_device env w p) },
        delete_device ((start_world env w p).log (Effect.device_start (start_device env w p)))
          (start_device env w p), ?_, ?_⟩
      · simp [start_then_stop, hst, ArtNetPlugin.stop, hs]
      · intro _
        simp [delete_device, World.log, start_world, new_ArtNetDevice, hs]

/-- C4 amended, at a never started plugin and nothing registered. -/
theorem start_then_stop_restores_witness :
    ∃ r1 r2 s2 w2,
      start_then_stop (demoEnv [] 3 0 0 true true) stoppedPlugin emptyWorld
        = some ((r1, r2), s2, w2) ∧
      ((r1 = 0 → r2 = 0) →
        w2.fds = emptyWorld.fds ∧ w2.devices = emptyWorld.devices ∧ s2.m_enabled = false) :=
  start_then_stop_restores (demoEnv [] 3 0 0 true true) stoppedPlugin emptyWorld rfl
    (fun d _ _ => ⟨by simp [emptyWorld], by simp [emptyWorld]⟩)

/-- C5: when `start` runs on a plugin that is not enabled and the preferences do
not load, or the new device does not start, then `start` returns -1, the plugin
is still not enabled, the registered descriptors and devices are unchanged, no
registration call was issued, and every device object the call created has been
deleted and is no longer live. -/
theorem start_failure_unwinds {P : Type} (env : Env P) (s : ArtNetPlugin P) (w : World)
    (hs : s.m_enabled = false)
    (hfail : load_prefs env.prefs = none ∨
      ∃ p, load_prefs env.prefs = some p ∧
        env.device_start (start_world env w p) (start_device env w p) ≠ 0) :
    (ArtNetPlugin.start env s w).1 = -1 ∧
    (ArtNetPlugin.start env s w).2.1.m_enabled = false ∧
    (ArtNetPlugin.start env s w).2.2.fds = w.fds ∧
    (ArtNetPlugin.start env s w).2.2.devices = w.devices ∧
    (∀ e ∈ issued w (ArtNetPlugin.start env s w).2.2, e.isRegistration = false) ∧
    (∀ d, Effect.new_device d ∈ issued w (ArtNetPlugin.start env s w).2.2 →
      Effect.delete_device d ∈ issued w (ArtNetPlugin.start env s w).2.2 ∧
      d ∉ (ArtNetPlugin.start env s w).2.2.live) := by
  rcases hfail with hp | ⟨p, hp, hd⟩
  · rw [start_prefs_fail env s w hs hp]
    simp [issued, World.log, hs, Effect.isRegistration]
  · rw [start_device_fail env s w p hs hp hd]
    simp [issued, World.log, hs, Effect.isRegistration, delete_device, start_world,
      new_ArtNetDevice, start_device]

/-- C5 at a device that refuses to start, and at a store that cannot hold the
subnet default so that the preferences do not load. -/
theorem start_failure_unwinds_witness :
    ((ArtNetPlugin.start (demoEnv [] 3 (-1) 0 true true) stoppedPlugin emptyWorld).1 = -1 ∧
      (ArtNetPlugin.start (demoEnv [] 3 (-1) 0 true true) stoppedPlugin emptyWorld).2.1.m_enabled
        = false ∧
      7 ∉ (ArtNetPlugin.start (demoEnv [] 3 (-1) 0 true true) stoppedPlugin emptyWorld).2.2.live) ∧
    (ArtNetPlugin.start (brokenEnv 3) stoppedPlugin emptyWorld).1 = -1 :=
  have h := start_failure_unwinds (demoEnv [] 3 (-1) 0 true true) stoppedPlugin emptyWorld rfl
    (Or.inr ⟨defaultPrefs, by decide, by decide⟩)
  have h2 := start_failure_unwinds (brokenEnv 3) stoppedPlugin emptyWorld rfl
    (Or.inl (by decide))
  ⟨⟨h.1, h.2.1, (h.2.2.2.2.2 7 (by decide)).2⟩, h2.1⟩

/-- C6 evaluated where the claim fails: the adaptor refuses the descriptor (first
run) or the device (second run), nothing is added to the refused set, and
`start` still returns 0 with the plugin enabled. -/
theorem start_ignores_registration_failure :
    ((ArtNetPlugin.start (demoEnv [] 3 0 0 false true) stoppedPlugin emptyWorld).1 = 0 ∧
      (ArtNetPlugin.start (demoEnv [] 3 0 0 false true) stoppedPlugin emptyWorld).2.1.m_enabled
        = true ∧
      (ArtNetPlugin.start (demoEnv [] 3 0 0 false true) stoppedPlugin emptyWorld).2.2.fds = ∅ ∧
      (register_fd (demoEnv [] 3 0 0 false true) emptyWorld 3 7).1 = -1) ∧
    ((ArtNetPlugin.start (demoEnv [] 3 0 0 true false) stoppedPlugin emptyWorld).1 = 0 ∧
      (ArtNetPlugin.start (demoEnv [] 3 0 0 true false) stoppedPlugin emptyWorld).2.1.m_enabled
        = true ∧
      (ArtNetPlugin.start (demoEnv [] 3 0 0 true false) stoppedPlugin emptyWorld).2.2.devices
        = ∅ ∧
      (register_device (demoEnv [] 3 0 0 true false) emptyWorld 7).1 = -1) := by
  refine ⟨⟨by decide, by decide, by decide, by decide⟩,
    ⟨by decide, by decide, by decide, by decide⟩⟩

/-! ## The preference defaults -/

/-- Reading the key that a guarded default block of `load_prefs` is about. -/
theorem get_val_default_same {P : Type} (ops : PreferencesOps P) (h : KeyValueStore ops)
    (p : P) (k v : String) :
    ops.get_val (if ops.get_val p k = "" then ops.save (ops.set_val p k v) else p) k
      = if ops.get_val p k = "" then v else ops.get_val p k := by
  split_ifs
  · rw [h.get_save, h.get_set]
  · rfl

/-- Reading another key after a guarded default block of `load_prefs`. -/
theorem get_val_default_other {P : Type} (ops : PreferencesOps P) (h : KeyValueStore ops)
    (p : P) (k j v : String) (hjk : j ≠ k) :
    ops.get_val (if ops.get_val p k = "" then ops.save (ops.set_val p k v) else p) j
      = ops.get_val p j := by
  split_ifs
  · rw [h.get_save, h.get_set_other p k j v hjk]
  · rfl

/-- The list store obeys the key/value laws. -/
theorem listStore_keyValueStore (stored : List (String × String)) :
    KeyValueStore (listStore stored) where
  get_set := by
    intro p k v
    simp [listStore]
  get_set_other := by
    intro p k j v hjk
    simp only [listStore]
    rw [List.find?_cons_of_neg _ (by simpa using fun h => hjk h.symm)]
    congr 2
    rw [List.find?_filter]
    congr 1
    funext a
    by_cases haj : a.1 = j
    · simp [haj, hjk]
    · simp [haj]
  get_save := by
    intro p k
    rfl

/-- C10: over a preference store that obeys the key/value laws (a key reads the
value last set for it), `load_prefs` returns an object in which `short_name`,
`long_name` and `subnet` are non-empty, each being the stored value when that
was non-empty and else the default; and over any store `load_prefs` returns NULL
exactly when one of the three keys reads empty after the defaulting blocks. -/
theorem load_prefs_defaults {P : Type} (ops : PreferencesOps P) :
    (KeyValueStore ops →
      ∃ p, load_prefs ops = some p ∧
        ops.get_val p "short_name" ≠ "" ∧
        ops.get_val p "long_name" ≠ "" ∧
        ops.get_val p "subnet" ≠ "" ∧
        ops.get_val p "short_name" =
          (if ops.get_val (ops.load (ops.create "artnet")) "short_name" = ""
            then "lla - ArtNet node"
            else ops.get_val (ops.load (ops.create "artnet")) "short_name") ∧
        ops.get_val p "long_name" =
          (if ops.get_val (ops.load (ops.create "artnet")) "long_name" = ""
            then "lla - ArtNet node"
            else ops.get_val (ops.load (ops.create "artnet")) "long_name") ∧
        ops.get_val p "subnet" =
          (if ops.get_val (ops.load (ops.create "artnet")) "subnet" = ""
            then "0"
            else ops.get_val (ops.load (ops.create "artnet")) "subnet")) ∧
    (load_prefs ops = none ↔
      ops.get_val (apply_defaults ops (ops.load (ops.create "artnet"))) "short_name" = "" ∨
      ops.get_val (apply_defaults ops (ops.load (ops.create "artnet"))) "long_name" = "" ∨
      ops.get_val (apply_defaults ops (ops.load (ops.create "artnet"))) "subnet" = "") := by
  have hnull : (load_prefs ops = none ↔
      ops.get_val (apply_defaults ops (ops.load (ops.create "artnet"))) "short_name" = "" ∨
      ops.get_val (apply_defaults ops (ops.load (ops.create "artnet"))) "long_name" = "" ∨
      ops.get_val (apply_defaults ops (ops.load (ops.create "artnet"))) "subnet" = "") := by
    simp only [load_prefs]
    split_ifs with hc
    · simp [hc]
    · simp [hc]
  refine ⟨fun h => ?_, hnull⟩
  have hs : ops.get_val (apply_defaults ops (ops.load (ops.create "artnet"))) "short_name" =
      (if ops.get_val (ops.load (ops.create "artnet")) "short_name" = ""
        then "lla - ArtNet node"
        else ops.get_val (ops.load (ops.create "artnet")) "short_name") := by
    simp only [apply_defaults]
    rw [get_val_default_other ops h _ _ _ _ (by decide),
      get_val_default_other ops h _ _ _ _ (by decide), get_val_default_same ops h]
    rfl
  have hl : ops.get_val (apply_defaults ops (ops.load (ops.create "artnet"))) "long_name" =
      (if ops.get_val (ops.load (ops.create "artnet")) "long_name" = ""
        then "lla - ArtNet node"
        else ops.get_val (ops.load (ops.create "artnet")) "long_name") := by
    simp only [apply_defaults]
    rw [get_val_default_other ops h _ _ _ _ (by decide), get_val_default_same ops h,
      get_val_default_other ops h _ _ _ _ (by decide)]
    rfl
  have hn : ops.get_val (apply_defaults ops (ops.load (ops.create "artnet"))) "subnet" =
      (if ops.get_val (ops.load (ops.create "artnet")) "subnet" = ""
        then "0"
        else ops.get_val (ops.load (ops.create "artnet")) "subnet") := by
    simp only [apply_defaults]
    rw [get_val_default_same ops h, get_val_default_other ops h _ _ _ _ (by decide),
      get_val_default_other ops h _ _ _ _ (by decide)]
    rfl
  have hs0 : ops.get_val (apply_defaults ops (ops.load (ops.create "artnet"))) "short_name"
      ≠ "" := by
    rw [hs]; split_ifs with hc
    · decide
    · exact hc
  have hl0 : ops.get_val (apply_defaults ops (ops.load (ops.create "artnet"))) "long_name"
      ≠ "" := by
    rw [hl]; split_ifs with hc
    · decide
    · exact hc
  have hn0 : ops.get_val (apply_defaults ops (ops.load (ops.create "artnet"))) "subnet"
      ≠ "" := by
    rw [hn]; split_ifs with hc
    · decide
    · exact hc
  refine ⟨apply_defaults ops (ops.load (ops.create "artnet")), ?_, hs0, hl0, hn0, hs, hl, hn⟩
  simp [load_prefs, hs0, hl0, hn0]

/-- C10 at a stored set with a short name, an empty subnet and no long name. -/
theorem load_prefs_defaults_witness :
    ∃ p, load_prefs (listStore [("short_name", "desk"), ("subnet", "")]) = some p ∧
      (listStore [("short_name", "desk"), ("subnet", "")]).get_val p "short_name" = "desk" ∧
      (listStore [("short_name", "desk"), ("subnet", "")]).get_val p "long_name"
        = "lla - ArtNet node" ∧
      (listStore [("short_name", "desk"), ("subnet", "")]).get_val p "subnet" = "0" := by
  obtain ⟨p, hp, -, -, -, hs, hl, hn⟩ :=
    (load_prefs_defaults (listStore [("short_name", "desk"), ("subnet", "")])).1
      (listStore_keyValueStore [("short_name", "desk"), ("subnet", "")])
  exact ⟨p, hp, hs, hl, hn⟩

/-! ## The widget -/

/-- The channel frame always has 513 bytes. -/
theorem channel_frame_length (buf : List Nat) : (channel_frame buf).length = 513 := by
  simp only [channel_frame, DMX_BUF_LEN, List.length_cons, List.length_append, List.length_take,
    List.length_replicate]
  omega

/-- C7: the wire bytes of a message start with the start marker, the label, the
low and the high byte of the payload length, and the payload follows from offset
`K_HEADER_SIZE` = 4; `SendDmx` puts the header with length bytes 0x01, 0x02 and
the 513-byte channel frame on the wire, 517 bytes in all, and for 512 channels
of 255 these are the marker, the label, 0x01, 0x02, 0x00 and 512 times 0xFF. -/
theorem send_dmx_wire_layout (start_marker label_dmx : Nat) (buf : List Nat) (msg : promsg)
    (len : Nat) :
    (K_HEADER_SIZE = 4 ∧
      (wire_bytes (set_msg_len msg len)).take K_HEADER_SIZE
        = [msg.som, msg.label, len % 256, len / 256 % 256] ∧
      (wire_bytes (set_msg_len msg len)).drop K_HEADER_SIZE
        = msg.pm_pmu.take (len % 256 + 256 * (len / 256 % 256))) ∧
    (SendDmx start_marker label_dmx buf
        = [start_marker, label_dmx, 0x01, 0x02] ++ channel_frame buf ∧
      (SendDmx start_marker label_dmx buf).drop K_HEADER_SIZE = channel_frame buf ∧
      (SendDmx start_marker label_dmx buf).length = 517) ∧
    SendDmx start_marker label_dmx (List.replicate 512 255)
      = [start_marker, label_dmx, 0x01, 0x02, 0x00] ++ List.replicate 512 0xFF := by
  have hsend : ∀ b, SendDmx start_marker label_dmx b
      = [start_marker, label_dmx, 0x01, 0x02] ++ channel_frame b := by
    intro b
    have hl := channel_frame_length b
    simp only [SendDmx, wire_bytes, set_msg_len, DMX_BUF_LEN]
    rw [List.take_of_length_le (by omega)]
  refine ⟨⟨rfl, ?_, ?_⟩, ⟨hsend buf, ?_, ?_⟩, ?_⟩
  · simp [wire_bytes, set_msg_len, K_HEADER_SIZE]
  · simp [wire_bytes, set_msg_len, K_HEADER_SIZE]
  · rw [hsend]; simp [K_HEADER_SIZE]
  · rw [hsend]; simp [channel_frame_length]
  · rw [hsend]
    simp only [channel_frame, DMX_BUF_LEN, K_START_CODE, List.take_replicate,
      List.length_replicate, Nat.add_one_sub_one, Nat.sub_self, List.replicate_zero,
      List.append_nil, min_self, List.cons_append, List.nil_append]

/-- With all change flags zero one flag bit changes neither frame nor cursor. -/
theorem cos_step_no_flags (chan : Nat → Nat → Nat) (cos : pms_cos)
    (h : ∀ b ∈ cos.changed, b = 0) (st : List Nat × Nat) (j : Nat) :
    cos_step chan cos st j = st := by
  have hz : cos.changed.getD (j / 8) 0 = 0 := by
    by_cases hlt : j / 8 < cos.changed.length
    · rw [List.getD_eq_getElem _ _ hlt]
      exact h _ (List.getElem_mem _)
    · exact List.getD_eq_default _ _ (by omega)
  unfold cos_step
  rw [hz]
  simp

/-- With all change flags zero any run over flag bits is the identity. -/
theorem foldl_cos_step_no_flags (chan : Nat → Nat → Nat) (cos : pms_cos)
    (h : ∀ b ∈ cos.changed, b = 0) (js : List Nat) (st : List Nat × Nat) :
    js.foldl (cos_step chan cos) st = st := by
  induction js generalizing st with
  | nil => rfl
  | cons j js ih => rw [List.foldl_cons, cos_step_no_flags chan cos h, ih]

/-- C9: for every widget, every start index and data block, and every reading of
the start index as a channel, a change-of-state message whose five change-flag
bytes are all zero leaves the last-received frame `m_dmx` as it was. -/
theorem handle_cos_no_flags (chan : Nat → Nat → Nat) (w : UsbProWidget) (cos : pms_cos)
    (hlen : cos.changed.length = 5) (h : ∀ b ∈ cos.changed, b = 0) :
    (w.handle_cos chan cos).m_dmx = w.m_dmx := by
  have _ := hlen
  simp [UsbProWidget.handle_cos, foldl_cos_step_no_flags chan cos h]

/-- C9 at a frame of 512 channels of 7 and forty data bytes of 9. -/
theorem handle_cos_no_flags_witness :
    ((UsbProWidget.construct (List.replicate 512 7) none).handle_cos (fun st j => st * 8 + j)
      { start := 0, changed := [0, 0, 0, 0, 0], data := List.replicate 40 9 }).m_dmx
      = List.replicate 512 7 :=
  handle_cos_no_flags _ _ _ rfl (by decide)

end Ola
